import Mathlib

/-!
Verification development for the Dendron versioned-configuration engine
(`packages/engine-server/src/config.ts`, `packages/engine-server/src/topics/hooks.ts`,
`packages/common-all/src/types/intermediateConfigs.ts`).

Configuration objects are modelled as a JSON-like value type `JsVal`.
JavaScript `undefined` is modelled as absence, i.e. `Option JsVal` with
`none` standing for `undefined`; the configs handled by this code contain
no `null`/`NaN`, so those are not modelled.  Objects are association
lists with first-binding-wins lookup; object merges (`{...a, ...b}`,
`_.defaults`) are modelled so that lookups agree with JavaScript.
-/

namespace Dendron

/-- JSON-like runtime value (the shape of `IntermediateDendronConfig` data). -/
inductive JsVal where
  | bool (b : Bool)
  | num (n : Int)
  | str (s : String)
  | arr (elems : List JsVal)
  | obj (fields : List (String × JsVal))

/-- Association-list lookup, first binding wins (JavaScript property access). -/
def alookup {α : Type} (k : String) : List (String × α) → Option α
  | [] => none
  | (k', v) :: t => if k' = k then some v else alookup k t

/-- Property access `v[k]`: `undefined` (= `none`) on non-objects and missing keys. -/
def objGet (v : JsVal) (k : String) : Option JsVal :=
  match v with
  | .obj fields => alookup k fields
  | _ => none

/-- Walk a list of path segments, as lodash `_.get` does after splitting the path. -/
def jsGetKeys : JsVal → List String → Option JsVal
  | v, [] => some v
  | v, k :: ks =>
    match objGet v k with
    | some w => jsGetKeys w ks
    | none => none

/-- Dot-splitting helper: accumulates the current segment (reversed). -/
def splitDotsAux (acc : List Char) : List Char → List String
  | [] => [String.mk acc.reverse]
  | c :: rest =>
    if c = '.' then String.mk acc.reverse :: splitDotsAux [] rest
    else splitDotsAux (c :: acc) rest

/-- Split a dotted path into its segments (the path parsing lodash applies to
plain dotted paths such as `"workspace.journal"`). -/
def splitDots (s : String) : List String :=
  splitDotsAux [] s.data

/-- lodash `_.get(config, path)` for a dotted string path. -/
def jsGet (v : JsVal) (path : String) : Option JsVal :=
  jsGetKeys v (splitDots path)

/-- JavaScript truthiness of a defined value (`false`, `0`, `""` are falsy). -/
def truthy : JsVal → Bool
  | .bool b => b
  | .num n => n != 0
  | .str s => s != ""
  | .arr _ => true
  | .obj _ => true

/-- JavaScript truthiness where `none` models `undefined`. -/
def truthyOpt : Option JsVal → Bool
  | none => false
  | some v => truthy v

/-- lodash `_.size`: length for arrays/strings/objects, `0` for `undefined` and scalars. -/
def jsSize : Option JsVal → Nat
  | some (.arr l) => l.length
  | some (.obj f) => f.length
  | some (.str s) => s.length
  | _ => 0

/-- lodash `_.defaults(dst, src)`: fill keys of `src` missing from `dst` into `dst`
(the mutated `dst` is also the return value; callers that rely on the mutation
receive this result as the post-state of their argument). -/
def jsDefaults (dst src : JsVal) : JsVal :=
  match dst, src with
  | .obj dstF, .obj srcF =>
    .obj (dstF ++ srcF.filter (fun kv => (alookup kv.1 dstF).isNone))
  | _, _ => dst

/-- Object spread `{...a, ...b}` on field lists (`b` wins); with first-binding-wins
lookup, prepending `b` realizes exactly the JavaScript lookup behaviour. -/
def jsSpread (a b : List (String × JsVal)) : List (String × JsVal) :=
  b ++ a

/-! ### Default generator (`DConfig.genDefaultConfig`) -/

/-- Modelled from the spec: `LegacyLookupSelectionType.selectionExtract` is an enum
of `@dendronhq/common-all` (outside the shown sources); string enums carry their
variant name. -/
def selectionExtract : JsVal := .str "selectionExtract"

/-- Modelled from the spec: `LegacyNoteAddBehavior.childOfDomain` (enum outside the
shown sources). -/
def childOfDomain : JsVal := .str "childOfDomain"

/-- Modelled from the spec: `LegacyNoteAddBehavior.asOwnDomain` (enum outside the
shown sources). -/
def asOwnDomain : JsVal := .str "asOwnDomain"

/-- Modelled from the spec: `genDefaultCommandConfig()` from `@dendronhq/common-all`
produces the "fresh empty `commands`" block; its inner fields are outside this core
and no claim depends on them. -/
def genDefaultCommandConfig : JsVal := .obj []

/-- Modelled from the spec: `genDefaultWorkspaceConfig()` from `@dendronhq/common-all`
produces the fresh `workspace` block "which itself carries its own nested defaults,
produced by a collaborator outside this core"; no claim depends on its contents. -/
def genDefaultWorkspaceConfig : JsVal := .obj []

/-- The `common` block of `genDefaultConfig`. -/
def commonFields : List (String × JsVal) := [
  ("useFMTitle", .bool true),
  ("useNoteTitleForLink", .bool true),
  ("noLegacyNoteRef", .bool true),
  ("mermaid", .bool true),
  ("useKatex", .bool true),
  ("usePrettyRefs", .bool true),
  ("dev", .obj [("enablePreviewV2", .bool true)]),
  ("site", .obj [
    ("copyAssets", .bool true),
    ("siteHierarchies", .arr [.str "root"]),
    ("siteRootDir", .str "docs"),
    ("usePrettyRefs", .bool true),
    ("title", .str "Dendron"),
    ("description", .str "Personal knowledge space"),
    ("siteLastModified", .bool true),
    ("gh_edit_branch", .str "main")])]

/-- The `omittedFromV2` block of `genDefaultConfig`. -/
def omittedFromV2Fields : List (String × JsVal) := [
  ("lookupConfirmVaultOnCreate", .bool false),
  ("lookup", .obj [("note", .obj [
    ("selectionType", selectionExtract),
    ("leaveTrace", .bool false)])])]

/-- The `omittedFromV3` block of `genDefaultConfig`. -/
def omittedFromV3Fields : List (String × JsVal) := [
  ("vaults", .arr []),
  ("journal", .obj [
    ("dailyDomain", .str "daily"),
    ("name", .str "journal"),
    ("dateFormat", .str "y.MM.dd"),
    ("addBehavior", childOfDomain),
    ("firstDayOfWeek", .num 1)]),
  ("scratch", .obj [
    ("name", .str "scratch"),
    ("dateFormat", .str "y.MM.dd.HHmmss"),
    ("addBehavior", asOwnDomain)]),
  ("noAutoCreateOnDefinition", .bool true),
  ("noXVaultWikiLink", .bool true),
  ("autoFoldFrontmatter", .bool true),
  ("maxPreviewsCached", .num 10)]

/-- Field list of `DConfig.genDefaultConfig(version?)`: `version` defaults to 1;
the switch returns the v3/v2 shapes for 3 and 2 and the v1 shape otherwise
(`case 1: default:`).  The spread blocks have pairwise disjoint keys, so plain
concatenation is the exact object. -/
def genDefaultConfigFields (version : Option Int) : List (String × JsVal) :=
  match version.getD 1 with
  | 3 =>
    ("version", .num 3) :: commonFields ++
      [("commands", genDefaultCommandConfig), ("workspace", genDefaultWorkspaceConfig)]
  | 2 =>
    ("version", .num 2) :: commonFields ++ omittedFromV3Fields ++
      [("commands", genDefaultCommandConfig)]
  | _ =>
    ("version", .num 1) :: commonFields ++ omittedFromV3Fields ++ omittedFromV2Fields

/-- `DConfig.genDefaultConfig(version?)` as a value. -/
def genDefaultConfig (version : Option Int) : JsVal :=
  .obj (genDefaultConfigFields version)

/-! ### Resolver (`requiredPathsMap`, `getProp`, `getLegacyConfig`, `getConfig`) -/

/-- The static `requiredPathsMap`: canonical dotted path to pre-migration
top-level key. -/
def requiredPathsMap : List (String × String) := [
  ("commands.insertNote.initialValue", "defaultInsertHierarchy"),
  ("commands.insertNoteLink", "insertNoteLink"),
  ("commands.insertNoteIndex", "insertNoteIndex"),
  ("commands.randomNote", "randomNote"),
  ("commands.lookup", "lookup"),
  ("workspace.journal", "journal"),
  ("workspace.vaults", "vaults")]

/-- `DConfig.isRequired(path)`: membership in `requiredPathsMap`. -/
def isRequired (path : String) : Bool :=
  (alookup path requiredPathsMap).isSome

/-- `CURRENT_CONFIG_VERSION` from `intermediateConfigs.ts`. -/
def CURRENT_CONFIG_VERSION : Int := 3

/-- `DConfig.isCurrentConfig(config)`: strict equality
`config.version === CURRENT_CONFIG_VERSION`. -/
def isCurrentConfig (config : JsVal) : Bool :=
  match objGet config "version" with
  | some (.num n) => n == CURRENT_CONFIG_VERSION
  | _ => false

/-- Strict equality test `config.version === n` (the `switch` in `getConfig`). -/
def versionEq (config : JsVal) (n : Int) : Bool :=
  match objGet config "version" with
  | some (.num m) => m == n
  | _ => false

/-- `DConfig.getProp(config, key)`: `_.defaults(config, genDefaultConfig())` then
read `key`.  `_.defaults` mutates `config`, so the result is the pair
(post-state of `config`, returned value). -/
def getProp (config : JsVal) (key : String) : JsVal × Option JsVal :=
  let cConfig := jsDefaults config (genDefaultConfig none)
  (cConfig, objGet cConfig key)

/-- `DConfig.getLegacyConfig(config, path)`: map `path` through `requiredPathsMap`
and read via `getProp`.  When the path has no mapping, `map.get` yields
`undefined` and `cConfig[undefined]` reads the literal property name
`"undefined"` (the defaults mutation of `getProp` still happens). -/
def getLegacyConfig (config : JsVal) (path : String) : JsVal × Option JsVal :=
  match alookup path requiredPathsMap with
  | some key => getProp config key
  | none => getProp config "undefined"

/-- `DConfig.getConfig(config, path)`.  Returns (post-state of `config`, value):
only the `getLegacyConfig` branch can mutate `config` (through `getProp`). -/
def getConfig (config : JsVal) (path : String) : JsVal × Option JsVal :=
  let value := jsGet config path
  if truthyOpt value then (config, value)
  else if value.isNone && !(isCurrentConfig config) then
    if versionEq config 2 then
      if isRequired path then (config, jsGet (genDefaultConfig (some 2)) path)
      else (config, none)
    else getLegacyConfig config path
  else if value.isNone && isRequired path then
    (config, jsGet (genDefaultConfig (some 3)) path)
  else (config, none)

/-! ### Config store (`getOrCreate`) -/

/-- `DConfig.getOrCreate(dendronRoot, defaults?)`.  File I/O is modelled by
`onDisk` (`none` = no config file at the root, `some fields` = the parsed
on-disk object).  Result is (returned config, config written to disk if any). -/
def getOrCreate (onDisk : Option (List (String × JsVal)))
    (defaults : List (String × JsVal)) : JsVal × Option JsVal :=
  let config := jsSpread defaults (genDefaultConfigFields none)
  match onDisk with
  | none => (.obj config, some (.obj config))
  | some disk => (.obj (jsSpread config disk), none)

/-! ### Site-config normalizer (`cleanSiteConfig`) -/

/-- Errors thrown by `DConfig.cleanSiteConfig`: a raw thrown string
(`throw "siteRootDir is undefined"`) or a `DendronError` with status
`ERROR_STATUS.INVALID_CONFIG` and the given message (`DendronError` itself
lives outside the shown sources; only its status/message are relevant). -/
inductive ConfigError where
  | thrownString (msg : String)
  | invalidConfig (msg : String)

/-- Message of the INVALID_CONFIG error for an unresolvable `siteUrl`. -/
def siteUrlMissingMsg : String :=
  "siteUrl is undefined. See https://dendron.so/notes/f2ed8639-a604-4a9d-b76c-41e205fb8713.html#siteurl for more details"

/-- Message of the INVALID_CONFIG error for empty `siteHierarchies`
(misspellings as in the source). -/
def siteHierarchiesMsg : String :=
  "siteHiearchies must have at least one hiearchy"

/-- The `_.defaults` source object of `cleanSiteConfig`. -/
def siteDefaults : List (String × JsVal) := [
  ("copyAssets", .bool true),
  ("usePrettyRefs", .bool true),
  ("siteNotesDir", .str "notes"),
  ("siteFaviconPath", .str "favicon.ico"),
  ("gh_edit_link", .bool true),
  ("gh_edit_link_text", .str "Edit this page on GitHub"),
  ("gh_edit_branch", .str "main"),
  ("gh_root", .str "docs/"),
  ("gh_edit_view_mode", .str "edit"),
  ("writeStubs", .bool true),
  ("description", .str "Personal knowledge space")]

/-- Truthiness of `process.env["SITE_URL"]` (`none` = unset, `""` is falsy). -/
def envTruthy : Option String → Bool
  | none => false
  | some s => s != ""

/-- `DConfig.getSiteIndex(sconfig)`: `siteIndex || siteHierarchies[0]`.
Indexing an `undefined` `siteHierarchies` would throw in JavaScript; inside
`cleanSiteConfig` the call sits behind the `_.size < 1` guard, so that case is
unreachable there and is modelled as `none`. -/
def getSiteIndex (sconfig : JsVal) : Option JsVal :=
  let siteIndex := objGet sconfig "siteIndex"
  if truthyOpt siteIndex then siteIndex
  else
    match objGet sconfig "siteHierarchies" with
    | some (.arr (x :: _)) => some x
    | _ => none

/-- The successful return value `{...out, siteIndex, siteUrl}` of
`cleanSiteConfig`; an `undefined` `siteIndex` shorthand property is modelled as
key absence. -/
def cleanedSiteConfig (out : JsVal) (siteIndex siteUrl : Option JsVal) :
    Except ConfigError JsVal :=
  let withIndex :=
    match siteIndex with
    | some v => [("siteIndex", v)]
    | none => []
  match out with
  | .obj outF => .ok (.obj (jsSpread outF
      (withIndex ++ (siteUrl.map (fun u => [("siteUrl", u)])).getD [])))
  | _ => .ok out

/-- `DConfig.cleanSiteConfig(config)`.  The `SITE_URL` environment variable and
`getStage()` (both external interfaces) are passed explicitly.  Note the source
calls `getSiteIndex(config)` on the original reference, which `_.defaults` has
already mutated into `out`, so the model reads from `out`. -/
def cleanSiteConfig (envSiteUrl : Option String) (stage : String)
    (config : JsVal) : Except ConfigError JsVal :=
  let out := jsDefaults config (.obj siteDefaults)
  let siteRootDir := objGet out "siteRootDir"
  let siteHierarchies := objGet out "siteHierarchies"
  let siteUrl0 :=
    if envTruthy envSiteUrl then (envSiteUrl.map JsVal.str) else objGet out "siteUrl"
  if !(truthyOpt siteRootDir) then .error (.thrownString "siteRootDir is undefined")
  else
    let siteUrl1 :=
      if !(truthyOpt siteUrl0) && stage == "dev" then some (.str "https://foo")
      else siteUrl0
    if !(truthyOpt siteUrl1) then .error (.invalidConfig siteUrlMissingMsg)
    else if jsSize siteHierarchies < 1 then .error (.invalidConfig siteHierarchiesMsg)
    else cleanedSiteConfig out (getSiteIndex out) siteUrl1

/-- Whether a `cleanSiteConfig` outcome is a structured INVALID_CONFIG error. -/
def isInvalidConfig (r : Except ConfigError JsVal) : Bool :=
  match r with
  | .error (.invalidConfig _) => true
  | _ => false

/-! ### Backup (`createBackup`) -/

/-- I/O failure of `fs.copyFileSync` when the source file does not exist. -/
inductive IOFailure where
  | fileNotFound (path : String)

/-- Modelled from the spec: `CONSTANTS.DENDRON_CONFIG_FILE` lives outside the
shown sources; the spec fixes the config file as `<workspaceRoot>/dendron.yml`.
`path.join` is modelled as `/`-concatenation. -/
def configPath (configRoot : String) : String :=
  configRoot ++ "/" ++ "dendron.yml"

/-- `DConfig.createBackup(wsRoot, infix)`.  `Time.now().toFormat("yyyy.MM.dd.HHmmssS")`
is external real time, passed as `today`; the config file's existence is the
`fileExists` flag (`fs.copyFileSync` of a nonexistent source throws).  `mfx`
models the `infix` argument. -/
def createBackup (fileExists : Bool) (wsRoot : String) (mfx : String)
    (today : String) : Except IOFailure String :=
  let pfx := "dendron." ++ today ++ "."
  let suffix := "yml"
  let maybeInfix := if mfx != "" then mfx ++ "." else ""
  let backupName := pfx ++ maybeInfix ++ suffix
  let backupPath := wsRoot ++ "/" ++ backupName
  if fileExists then .ok backupPath
  else .error (.fileNotFound (configPath wsRoot))

/-! ### Hook-list editor (`HookUtils.removeFromConfig`)

The hook code touches only `version`, `workspace.hooks` and `hooks`, all of
known static shape, so it is modelled over typed records rather than `JsVal`. -/

/-- `DHookEntry` (id + script kind). -/
structure DHookEntry where
  id : String
  type : String
deriving DecidableEq, Repr

/-- Modelled from the spec: `DHookType` of `@dendronhq/common-all` is the set of
lifecycle keys; "currently only `onCreate` is used". -/
inductive DHookType where
  | onCreate
deriving DecidableEq, Repr

/-- The hooks container (`DHookDict`): lists keyed by lifecycle event; only
`onCreate` exists. -/
structure DHookDict where
  onCreate : List DHookEntry
deriving DecidableEq, Repr

/-- The `workspace` sub-object, as far as the hook code reads it. -/
structure DWorkspace where
  hooks : Option DHookDict
deriving DecidableEq, Repr

/-- The slice of `IntermediateDendronConfig` the hook editor touches:
`version` is required; `workspace` and `hooks` are optional. -/
structure HookedConfig where
  version : Int
  workspace : Option DWorkspace
  hooks : Option DHookDict
deriving DecidableEq, Repr

/-- `_.get(hooksConfig, hookType, [])` where `hooksConfig` may be `undefined`. -/
def hookListGet (hooksConfig : Option DHookDict) : DHookType → List DHookEntry
  | .onCreate => (hooksConfig.map DHookDict.onCreate).getD []

/-- lodash `_.remove(l, {id: hookId})` RETURNS the removed (matching) elements;
the non-matching residue is left in the mutated array, which the caller
immediately overwrites. -/
def lodashRemove (l : List DHookEntry) (hookId : String) : List DHookEntry :=
  l.filter (fun e => e.id == hookId)

/-- lodash `_.findIndex(l, {id: hookId})`: index of the first match, else `-1`. -/
def findIndexById (l : List DHookEntry) (hookId : String) : Int :=
  match l with
  | [] => -1
  | e :: t =>
    if e.id == hookId then 0
    else
      let r := findIndexById t hookId
      if r < 0 then -1 else r + 1

/-- JavaScript `l.splice(idx, 1)`: a negative start is clamped as
`max(length + idx, 0)`; deletes at most one element at that position. -/
def splice1 (l : List DHookEntry) (idx : Int) : List DHookEntry :=
  let start : Nat :=
    if idx < 0 then (max ((l.length : Int) + idx) 0).toNat
    else (min idx (l.length : Int)).toNat
  l.take start ++ l.drop (start + 1)

/-- `HookUtils.removeFromConfig({config, hookType, hookId})`.  A v3 config with
no `workspace` makes `config.workspace!.hooks` throw a TypeError at runtime,
modelled as `none`.  The interim `hooks = hooks || {onCreate: []}` assignment is
always overwritten by the final `onCreate` store, since `DHookDict` has only the
`onCreate` field. -/
def removeFromConfig (config : HookedConfig) (hookType : DHookType)
    (hookId : String) : Option HookedConfig :=
  if config.version == 3 then
    match config.workspace with
    | none => none
    | some ws =>
      let hooksConfig := ws.hooks
      let onCreate0 := hookListGet hooksConfig hookType
      let matched := lodashRemove onCreate0 hookId
      let idx := findIndexById matched hookId
      let final := splice1 matched idx
      some { config with workspace := some { ws with hooks := some { onCreate := final } } }
  else
    let hooksConfig := config.hooks
    let onCreate0 := hookListGet hooksConfig hookType
    let matched := lodashRemove onCreate0 hookId
    let idx := findIndexById matched hookId
    let final := splice1 matched idx
    some { config with hooks := some { onCreate := final } }

/-- The hook list `removeFromConfig` reads for the given `hookType` (the same
version-dependent container selection as the source). -/
def readHookList (config : HookedConfig) (hookType : DHookType) : List DHookEntry :=
  hookListGet
    (if config.version == 3 then config.workspace.bind DWorkspace.hooks else config.hooks)
    hookType

/-- The `onCreate` list stored in the version-selected container of a config. -/
def storedOnCreate (c : HookedConfig) : Option (List DHookEntry) :=
  if c.version == 3 then (c.workspace.bind DWorkspace.hooks).map DHookDict.onCreate
  else c.hooks.map DHookDict.onCreate

/-! ### Helper lemmas -/

theorem alookup_append {α : Type} (k : String) (a b : List (String × α)) :
    alookup k (a ++ b) = (alookup k a).orElse (fun _ => alookup k b) := by
  induction a with
  | nil => simp [alookup]
  | cons kv t ih =>
    obtain ⟨k', v⟩ := kv
    by_cases h : k' = k <;> simp [alookup, h, ih]

theorem alookup_filter_key {α : Type} (k : String) (l : List (String × α))
    (q : String → Bool) (hq : q k = true) :
    alookup k (l.filter (fun kv => q kv.1)) = alookup k l := by
  induction l with
  | nil => rfl
  | cons kv t ih =>
    obtain ⟨k', v⟩ := kv
    by_cases h : k' = k
    · subst h
      simp [alookup, hq, List.filter_cons]
    · by_cases h2 : q k' = true <;> simp [alookup, List.filter_cons, h, h2, ih]

/-- Lookup through `_.defaults`: the destination's binding wins, the source's
binding fills gaps. -/
theorem objGet_jsDefaults (dstF srcF : List (String × JsVal)) (k : String) :
    objGet (jsDefaults (.obj dstF) (.obj srcF)) k
      = (alookup k dstF).orElse (fun _ => alookup k srcF) := by
  show alookup k (dstF ++ srcF.filter fun kv => (alookup kv.1 dstF).isNone) = _
  rw [alookup_append]
  cases h : alookup k dstF with
  | some v => rfl
  | none =>
    show alookup k (srcF.filter fun kv => (alookup kv.1 dstF).isNone) = _
    rw [alookup_filter_key k srcF (fun s => (alookup s dstF).isNone) (by simp [h])]
    rfl

/-! ### Claim theorems -/

/-- C1 (amended): when direct structural lookup of `path` on `config` yields a
defined value, `getConfig` returns that value immediately exactly when it is
truthy; a defined but falsy value (`false`, `0`, `""`) makes every branch fall
through and `getConfig` returns `undefined`, regardless of `config.version`. -/
theorem getConfig_direct_hit (config : JsVal) (path : String) (v : JsVal)
    (h : jsGet config path = some v) :
    getConfig config path = (config, if truthy v then some v else none) := by
  by_cases ht : truthy v <;> simp [getConfig, h, truthyOpt, ht]

/-- A v3 config carrying a defined falsy field. -/
def mermaidOffConfig : JsVal :=
  .obj [("version", .num 3), ("site", .obj []), ("mermaid", .bool false)]

/-- C1 (counterexample): on a config whose `mermaid` field is the defined value
`false`, the direct lookup is defined yet `getConfig` does not return it — it
returns `undefined` instead, refuting the claim that every defined value
(including falsy ones) is returned immediately. -/
theorem getConfig_falsy_counterexample :
    jsGet mermaidOffConfig "mermaid" = some (.bool false)
    ∧ (getConfig mermaidOffConfig "mermaid").2 = none
    ∧ (getConfig mermaidOffConfig "mermaid").2 ≠ jsGet mermaidOffConfig "mermaid" :=
  ⟨rfl, rfl, fun h => Option.noConfusion h⟩

/-- A v3 config with a truthy `useKatex` field. -/
def katexOnConfig : JsVal :=
  .obj [("version", .num 3), ("site", .obj []), ("useKatex", .bool true)]

/-- C1 witness: a truthy direct hit on a v3 config is returned unchanged. -/
theorem getConfig_direct_hit_witness :
    getConfig katexOnConfig "useKatex" = (katexOnConfig, some (.bool true)) :=
  (getConfig_direct_hit katexOnConfig "useKatex" (.bool true) rfl).trans rfl

/-- A v1 config with a top-level `journal` and no `workspace` key. -/
def v1JournalConfig : JsVal :=
  .obj [("version", .num 1), ("site", .obj []), ("journal", .obj [("name", .str "j1")])]

/-- C4: when direct lookup fails and `config.version` is neither 2 nor 3
(so 1, unset, or anything else), `getConfig` resolves through
`getLegacyConfig`, which maps the path through `requiredPathsMap` and reads the
legacy top-level key via `getProp`; concretely, a v1 config with top-level
`journal` and no `workspace` yields that `journal` object for
`"workspace.journal"`. -/
theorem getConfig_v1_fallback :
    (∀ (config : JsVal) (path : String),
      jsGet config path = none →
      versionEq config 2 = false →
      isCurrentConfig config = false →
      getConfig config path = getLegacyConfig config path)
    ∧ (∀ (config : JsVal) (path key : String),
      alookup path requiredPathsMap = some key →
      getLegacyConfig config path = getProp config key)
    ∧ (getConfig v1JournalConfig "workspace.journal").2
        = some (.obj [("name", .str "j1")]) := by
  refine ⟨fun config path h1 h2 h3 => ?_, fun config path key h => ?_, rfl⟩
  · simp [getConfig, h1, h2, h3, truthyOpt]
  · simp [getLegacyConfig, h]

/-- C4 witness: the general fallback and the registry mapping at the concrete
v1 journal config. -/
theorem getConfig_v1_fallback_witness :
    getConfig v1JournalConfig "workspace.journal"
      = getLegacyConfig v1JournalConfig "workspace.journal"
    ∧ getLegacyConfig v1JournalConfig "workspace.journal"
      = getProp v1JournalConfig "journal" :=
  ⟨getConfig_v1_fallback.1 v1JournalConfig "workspace.journal" rfl rfl rfl,
   getConfig_v1_fallback.2.1 v1JournalConfig "workspace.journal" "journal" rfl⟩

/-- A v3 config with a `dev` block but no `dev.someUnknownFlag`. -/
def v3DevConfig : JsVal :=
  .obj [("version", .num 3), ("site", .obj []),
        ("dev", .obj [("enablePreviewV2", .bool true)])]

/-- C5: on a version-3 config, when direct lookup yields no value, `getConfig`
returns the value at the path in a fresh `genDefaultConfig(3)` if the path is in
`requiredPathsMap`, and `undefined` otherwise; concretely
`"dev.someUnknownFlag"` resolves to `undefined`. -/
theorem getConfig_v3_absent :
    (∀ (config : JsVal) (path : String),
      jsGet config path = none →
      isCurrentConfig config = true →
      getConfig config path
        = (config,
           if isRequired path then jsGet (genDefaultConfig (some 3)) path else none))
    ∧ (getConfig v3DevConfig "dev.someUnknownFlag").2 = none := by
  refine ⟨fun config path h1 h2 => ?_, rfl⟩
  by_cases hr : isRequired path <;> simp [getConfig, h1, h2, hr, truthyOpt]

/-- C5 witness: both the non-required (`undefined`) and the required
(v3-default) outcomes at concrete inputs. -/
theorem getConfig_v3_absent_witness :
    getConfig v3DevConfig "dev.someUnknownFlag" = (v3DevConfig, none)
    ∧ getConfig v3DevConfig "workspace.journal"
      = (v3DevConfig, jsGet (genDefaultConfig (some 3)) "workspace.journal") :=
  ⟨(getConfig_v3_absent.1 v3DevConfig "dev.someUnknownFlag" rfl rfl).trans rfl,
   (getConfig_v3_absent.1 v3DevConfig "workspace.journal" rfl rfl).trans rfl⟩

/-- C6: with a config file on disk, `getOrCreate` returns the object whose
top-level key `k` carries the on-disk value when present there (taken
wholesale), else the `genDefaultConfig()` value, else the `defaults` value;
with no file, the provisional config (`defaults` shallow-overridden by
`genDefaultConfig()`) is both persisted and returned. -/
theorem getOrCreate_shallow_merge :
    (∀ (defaults disk : List (String × JsVal)) (k : String),
      objGet (getOrCreate (some disk) defaults).1 k
        = ((alookup k disk).orElse fun _ =>
            ((objGet (genDefaultConfig none) k).orElse fun _ => alookup k defaults)))
    ∧ (∀ defaults : List (String × JsVal),
      getOrCreate none defaults
        = (.obj (jsSpread defaults (genDefaultConfigFields none)),
           some (.obj (jsSpread defaults (genDefaultConfigFields none))))) := by
  refine ⟨fun defaults disk k => ?_, fun _ => rfl⟩
  show alookup k ((disk ++ (genDefaultConfigFields none ++ defaults))) = _
  rw [alookup_append, alookup_append]
  rfl

/-- Top-level keys required by the schema variant of each version
(`intermediateConfigs.ts`): `IntermediateOldConfig` requires `version` and
`site` at every version; `StrictV1` additionally requires `journal` and
`vaults`; `StrictV2`/`StrictV3` add no further required keys. -/
def requiredKeys : Int → List String
  | 1 => ["version", "site", "journal", "vaults"]
  | _ => ["version", "site"]

/-- C7: `genDefaultConfig(v)` is structurally complete for each `v` in {1,2,3}
(every key required by `StrictV1`/`StrictV2`/`StrictV3` is present, i.e.
non-`undefined`), and the version-omitted call produces the version-1 shape. -/
theorem genDefaultConfig_complete :
    ((requiredKeys 1).all fun k => (objGet (genDefaultConfig (some 1)) k).isSome) = true
    ∧ ((requiredKeys 2).all fun k => (objGet (genDefaultConfig (some 2)) k).isSome) = true
    ∧ ((requiredKeys 3).all fun k => (objGet (genDefaultConfig (some 3)) k).isSome) = true
    ∧ genDefaultConfig none = genDefaultConfig (some 1) :=
  ⟨rfl, rfl, rfl, rfl⟩

/-- C9: `createBackup` targets the sibling path
`<wsRoot>/dendron.<timestamp>.<infix>.yml`, omitting the infix segment and its
separator entirely when the infix is empty, returns that path, and surfaces the
underlying I/O failure when no config file exists at the root. -/
theorem createBackup_naming (wsRoot mfx today : String) :
    createBackup true wsRoot mfx today
      = .ok (wsRoot ++ "/" ++
          ("dendron." ++ today ++ "." ++ (if mfx = "" then "" else mfx ++ ".") ++ "yml"))
    ∧ createBackup false wsRoot mfx today
      = .error (.fileNotFound (configPath wsRoot)) := by
  constructor
  · by_cases h : mfx = "" <;> simp [createBackup, h]
  · rfl

/-- A v1 config with only its required keys. -/
def v1BareConfig : JsVal := .obj [("version", .num 1), ("site", .obj [])]

/-- C10: `getProp` mutates its config argument — `_.defaults` writes every
missing top-level field of `genDefaultConfig()` (v1 defaults) into the object
before the requested key is read from the mutated object — so a `getConfig`
call on a v1 config can modify that config in place. -/
theorem getProp_mutates_config :
    (∀ (fields : List (String × JsVal)) (key k : String),
      objGet (getProp (.obj fields) key).1 k
        = ((alookup k fields).orElse fun _ => objGet (genDefaultConfig none) k))
    ∧ (∀ (fields : List (String × JsVal)) (key : String),
      (getProp (.obj fields) key).2 = objGet (getProp (.obj fields) key).1 key)
    ∧ (getConfig v1BareConfig "workspace.journal").1 ≠ v1BareConfig := by
  refine ⟨fun fields key k => objGet_jsDefaults fields _ k, fun _ _ => rfl, fun h => ?_⟩
  exact Option.noConfusion (congrArg (fun c => objGet c "journal") h)

/-- On a list whose members all match `hookId`, the splice-by-found-index step
deletes exactly the first element (and is a no-op on the empty list, where the
found index is `-1`). -/
theorem splice1_findIndex_all_match (m : List DHookEntry) (hookId : String)
    (hm : ∀ e ∈ m, e.id == hookId) :
    splice1 m (findIndexById m hookId) = m.drop 1 := by
  cases m with
  | nil => rfl
  | cons e t =>
    have he : (e.id == hookId) = true := hm e (List.mem_cons_self e t)
    have h0 : (min (0 : Int) ((t.length : Int) + 1)).toNat = 0 := by
      rw [min_eq_left (by positivity)]
      rfl
    simp [findIndexById, he, splice1, h0]

/-- A v1 config whose `onCreate` list holds two hooks with distinct ids. -/
def v1TwoHooksConfig : HookedConfig :=
  ⟨1, none, some ⟨[⟨"h1", "js"⟩, ⟨"h2", "js"⟩]⟩⟩

/-- C2 (code bug): removing hook `"h1"` from the list
`[{id:"h1"}, {id:"h2"}]` stores back the empty list — the non-matching entry
`{id:"h2"}` does not survive, although the intended net effect (the original
list with exactly the matching entries removed) would be `[{id:"h2"}]`:
`_.remove` returns the removed (matching) elements and the code keeps those,
minus one splice, instead of the filtered remainder. -/
theorem removeFromConfig_drops_nonmatching :
    (removeFromConfig v1TwoHooksConfig .onCreate "h1").bind storedOnCreate = some []
    ∧ (readHookList v1TwoHooksConfig .onCreate).filter (fun e => !(e.id == "h1"))
        = [⟨"h2", "js"⟩]
    ∧ some ([] : List DHookEntry) ≠ some [(⟨"h2", "js"⟩ : DHookEntry)] :=
  ⟨by decide, by decide, by decide⟩

/-- C3: `removeFromConfig` stores back, as the `onCreate` list of the
version-selected container, the sublist of entries whose id equals `hookId`
with its first element deleted (so the empty list when nothing matches); in
particular no entry with a different id survives, and a `hookId` matching
nothing leaves the stored list empty even when the original list was
non-empty.  The hypothesis excludes the v3-without-`workspace` configs on
which the source throws a `TypeError`. -/
theorem removeFromConfig_keeps_only_matches (config : HookedConfig)
    (hookType : DHookType) (hookId : String)
    (h : config.version = 3 → config.workspace.isSome = true) :
    (removeFromConfig config hookType hookId).bind storedOnCreate
      = some (((readHookList config hookType).filter (fun e => e.id == hookId)).drop 1) := by
  have key : ∀ l : List DHookEntry,
      splice1 (lodashRemove l hookId) (findIndexById (lodashRemove l hookId) hookId)
        = (l.filter (fun e => e.id == hookId)).drop 1 := by
    intro l
    exact splice1_findIndex_all_match _ hookId
      (fun e he => (List.mem_filter.mp he).2)
  by_cases hv : config.version = 3
  · cases hws : config.workspace with
    | none =>
      exact absurd (h hv) (by simp [hws])
    | some ws =>
      simp [removeFromConfig, hv, hws, storedOnCreate, readHookList, key]
  · simp [removeFromConfig, hv, storedOnCreate, readHookList, key]

/-- A v3 config with a populated `workspace.hooks.onCreate` list. -/
def v3TwoHooksConfig : HookedConfig :=
  ⟨3, some ⟨some ⟨[⟨"h1", "js"⟩, ⟨"h2", "js"⟩]⟩⟩, none⟩

/-- C3 witness: on a v3 config with hooks `[h1, h2]`, removing `"h1"` leaves
the stored list empty. -/
theorem removeFromConfig_keeps_only_matches_witness :
    (removeFromConfig v3TwoHooksConfig .onCreate "h1").bind storedOnCreate = some [] :=
  (removeFromConfig_keeps_only_matches v3TwoHooksConfig .onCreate "h1"
    (fun _ => rfl)).trans (by decide)

/-- Keys without a `cleanSiteConfig` default read through `_.defaults`
unchanged. -/
theorem objGet_jsDefaults_absent (fields src : List (String × JsVal)) (k : String)
    (hsrc : alookup k src = none) :
    objGet (jsDefaults (.obj fields) (.obj src)) k = alookup k fields := by
  rw [objGet_jsDefaults]
  cases h : alookup k fields <;> simp [h, hsrc, Option.orElse]

/-- The success branch of `cleanSiteConfig` is never an error. -/
theorem cleanedSiteConfig_ne_error (out : JsVal) (siteIndex siteUrl : Option JsVal)
    (e : ConfigError) : cleanedSiteConfig out siteIndex siteUrl ≠ .error e := by
  cases out <;> simp [cleanedSiteConfig]

/-- C8 (amended): `cleanSiteConfig` throws some error whenever
`siteHierarchies` is the empty list; and, when `siteRootDir` is truthy, it
throws the `siteUrl` INVALID_CONFIG error exactly when the config's `siteUrl`
is absent or falsy, `SITE_URL` is unset or empty, and the stage is not
`"dev"` — an empty `siteHierarchies` can additionally produce a (distinct)
INVALID_CONFIG error even when `siteUrl` resolves. -/
theorem cleanSiteConfig_error_conditions :
    (∀ (env : Option String) (stage : String) (fields : List (String × JsVal)),
      alookup "siteHierarchies" fields = some (.arr []) →
      ∃ e, cleanSiteConfig env stage (.obj fields) = .error e)
    ∧ (∀ (env : Option String) (stage : String) (fields : List (String × JsVal)),
      truthyOpt (alookup "siteRootDir" fields) = true →
      (cleanSiteConfig env stage (.obj fields) = .error (.invalidConfig siteUrlMissingMsg)
        ↔ truthyOpt (alookup "siteUrl" fields) = false
          ∧ envTruthy env = false ∧ stage ≠ "dev")) := by
  constructor
  · intro env stage fields hh
    have hh2 : objGet (jsDefaults (.obj fields) (.obj siteDefaults)) "siteHierarchies"
        = some (.arr []) := by
      rw [objGet_jsDefaults_absent fields siteDefaults "siteHierarchies" rfl, hh]
    simp only [cleanSiteConfig, hh2]
    split_ifs <;>
      first
        | exact ⟨_, rfl⟩
        | exact absurd (by decide : jsSize (some (JsVal.arr [])) < 1) (by assumption)
  · intro env stage fields hroot
    have hroot2 : truthyOpt
        (objGet (jsDefaults (.obj fields) (.obj siteDefaults)) "siteRootDir") = true := by
      rw [objGet_jsDefaults_absent fields siteDefaults "siteRootDir" rfl]
      exact hroot
    have hurl2 : objGet (jsDefaults (.obj fields) (.obj siteDefaults)) "siteUrl"
        = alookup "siteUrl" fields :=
      objGet_jsDefaults_absent fields siteDefaults "siteUrl" rfl
    have hmsg : ¬ (siteHierarchiesMsg = siteUrlMissingMsg) := by decide
    have hne := cleanedSiteConfig_ne_error
    have hfoo : truthyOpt (some (JsVal.str "https://foo")) = true := rfl
    cases env with
    | none =>
      by_cases hstage : stage = "dev" <;>
        by_cases hurl0 : truthyOpt (alookup "siteUrl" fields) = true <;>
        by_cases hsz : jsSize
          (objGet (jsDefaults (.obj fields) (.obj siteDefaults)) "siteHierarchies") < 1 <;>
        simp [cleanSiteConfig, hroot2, hurl2, envTruthy, hstage, hurl0, hsz, hmsg, hne, hfoo]
    | some s =>
      have hmap : truthyOpt (some (JsVal.str s)) = (s != "") := rfl
      by_cases hs : s = "" <;>
        by_cases hstage : stage = "dev" <;>
        by_cases hurl0 : truthyOpt (alookup "siteUrl" fields) = true <;>
        by_cases hsz : jsSize
          (objGet (jsDefaults (.obj fields) (.obj siteDefaults)) "siteHierarchies") < 1 <;>
        simp [cleanSiteConfig, hroot2, hurl2, envTruthy, hstage, hurl0, hsz, hmsg, hne,
          hfoo, hmap, hs]

/-- A site config with `siteRootDir` and `siteUrl` set but empty
`siteHierarchies`. -/
def siteUrlPresentEmptyHierarchies : JsVal :=
  .obj [("siteRootDir", .str "docs"), ("siteUrl", .str "https://x"),
        ("siteHierarchies", .arr [])]

/-- C8 (counterexample): with `siteUrl` present in the config (and `SITE_URL`
unset, stage `"prod"`), `cleanSiteConfig` still throws a structured
INVALID_CONFIG error — for the empty `siteHierarchies` — so "throws a
structured INVALID_CONFIG error exactly when siteUrl is absent, SITE_URL unset
and stage not dev" fails at this input. -/
theorem cleanSiteConfig_counterexample :
    isInvalidConfig (cleanSiteConfig none "prod" siteUrlPresentEmptyHierarchies) = true
    ∧ truthyOpt (objGet siteUrlPresentEmptyHierarchies "siteUrl") = true
    ∧ envTruthy none = false
    ∧ "prod" ≠ "dev" :=
  ⟨rfl, rfl, rfl, by decide⟩

/-- Site-config fields with a root dir and one hierarchy but no `siteUrl`. -/
def noUrlSiteFields : List (String × JsVal) :=
  [("siteRootDir", .str "docs"), ("siteHierarchies", .arr [.str "root"])]

/-- Site-config fields with a `siteUrl` but empty `siteHierarchies`. -/
def emptyHierarchiesFields : List (String × JsVal) :=
  [("siteRootDir", .str "docs"), ("siteUrl", .str "https://x"),
   ("siteHierarchies", .arr [])]

/-- C8 witness: an empty-hierarchies config errors, and a url-less config on a
non-dev stage with no environment override gets the siteUrl INVALID_CONFIG
error. -/
theorem cleanSiteConfig_error_conditions_witness :
    (∃ e, cleanSiteConfig none "prod" (.obj emptyHierarchiesFields) = .error e)
    ∧ cleanSiteConfig none "prod" (.obj noUrlSiteFields)
        = .error (.invalidConfig siteUrlMissingMsg) :=
  ⟨cleanSiteConfig_error_conditions.1 none "prod" emptyHierarchiesFields rfl,
   (cleanSiteConfig_error_conditions.2 none "prod" noUrlSiteFields rfl).mpr
     ⟨rfl, rfl, by decide⟩⟩

end Dendron
